import Mathlib

/-!
Verification of the richcorabbithole-api research pipeline core.

Shallow embedding of the two handlers of the repository:
 - `accept`  models src/research.js (the Accept handler, current version with
   JSON-parse guard, string/type check, 500-length check and UpdateCommand
   compensation);
 - `handler` models src/researchWorker.js (the SQS Worker with poison guards,
   idempotency check, provider call, blob write and nested failure handling).

DynamoDB items are modelled as attribute maps `String → Option String`
(every attribute this program stores is a string).  An UpdateCommand with a
SET expression applies field-level assignments and upserts the item; a
PutCommand replaces the whole item.  External calls (DynamoDB, Secrets
Manager, the provider, S3, SQS) are modelled by an environment that fixes
each call's outcome for the run, and every attempted call is recorded in an
effect trace so that absence of side effects is provable.
-/

/-- A DynamoDB item: attribute name to attribute value (all strings here). -/
def Item : Type := String → Option String

/-- JS string falsiness for an optional field read off a parsed object:
absent (undefined) and the empty string are falsy. -/
def strFalsy : Option String → Bool
  | none => true
  | some s => s.isEmpty

/-- One SET assignment of a DynamoDB update expression. -/
def setField (item : Item) (k v : String) : Item :=
  fun f => if f = k then some v else item f

/-- Apply the SET assignments of an update expression left to right. -/
def applySet : Item → List (String × String) → Item
  | item, [] => item
  | item, (k, v) :: rest => applySet (setField item k v) rest

/-- The Task Store: taskId to item. -/
def Store : Type := String → Option Item

/-- Fresh item holding only the key attribute, as DynamoDB creates on an
upsert of a missing item. -/
def keyOnlyItem (taskId : String) : Item :=
  fun f => if f = "taskId" then some taskId else none

/-- The item an UpdateCommand starts from: the stored one, or a fresh
key-only item when the key is absent (DynamoDB upsert). -/
def baseItem (store : Store) (taskId : String) : Item :=
  match store taskId with
  | some it => it
  | none => keyOnlyItem taskId

/-- Embedding of `updateTaskStatus` (researchWorker.js lines 44-69): an
UpdateCommand whose SET expression assigns `status`, `updatedAt`, and one
assignment per entry of `extraFields`, in that order; DynamoDB upserts the
item when it is missing. -/
def updateTaskStatus (store : Store) (taskId status now : String)
    (extraFields : List (String × String)) : Store :=
  fun k =>
    if k = taskId then
      some (applySet (baseItem store taskId)
            (("status", status) :: ("updatedAt", now) :: extraFields))
    else store k

/-- One typed content block of a provider response. -/
structure ContentBlock where
  type : String
  text : String
deriving DecidableEq, Repr

/-- The blob store: key to (body, contentType). -/
def Blobs : Type := String → Option (String × String)

/-- World state a Worker run reads and writes. -/
structure WorkerState where
  store : Store
  blobs : Blobs

/-- External calls attempted by a Worker run, in order. -/
inductive Effect where
  | getTask (taskId : String)
  | writeStatus (taskId status : String)
  | secretFetch
  | providerCall (topic : String)
  | blobPut (key : String)
deriving DecidableEq, Repr

/-- Outcome value of a Worker run that returns normally. -/
inductive WorkerOutcome where
  | noRecords
  | ackMissingTopic
  | alreadyResearched (taskId : String)
  | researched (taskId s3Key : String)
deriving DecidableEq, Repr

/-- Result of one Worker invocation: the returned value or the escalated
error, the final world state, and the trace of attempted external calls. -/
structure WorkerRun where
  result : Except String WorkerOutcome
  state : WorkerState
  trace : List Effect

/-- Fixed outcomes of the external calls for one Worker run.  A `some msg`
failure field means that call throws with message `msg`; `none` means it
succeeds.  `secret` and `provider` carry the successful value or the
thrown message. -/
structure WorkerEnv where
  now : String
  getFail : Option String
  researchingFail : Option String
  secret : Except String String
  provider : Except String (List ContentBlock)
  blobFail : Option String
  researchedFail : Option String
  markFailedFail : Option String

/-- Parse outcome of one SQS record body: `JSON.parse` either throws or
yields an object whose `taskId` and `topic` fields are read. -/
inductive Body where
  | malformed
  | parsed (taskId : Option String) (topic : Option String)
deriving DecidableEq, Repr

/-- The catch block of the Worker (researchWorker.js lines 179-192): attempt
to mark the task failed with the error message, swallow a secondary failure,
and rethrow the original error. -/
def workerCatch (env : WorkerEnv) (s : WorkerState) (taskId err : String)
    (trace : List Effect) : WorkerRun :=
  match env.markFailedFail with
  | some _ =>
      ⟨Except.error err, s, trace ++ [Effect.writeStatus taskId "failed"]⟩
  | none =>
      ⟨Except.error err,
       { s with store := updateTaskStatus s.store taskId "failed" env.now
                          [("error", err)] },
       trace ++ [Effect.writeStatus taskId "failed"]⟩

/-- The main try block of the Worker from the provider-independent part
(researchWorker.js lines 110-178), after the researching transition
succeeded: secret fetch, provider call, text-block scan, blob write,
researched transition. -/
def workerMain (env : WorkerEnv) (s : WorkerState) (tid topic : String)
    (t0 : List Effect) : WorkerRun :=
  let t1 := t0 ++ [Effect.writeStatus tid "researching"]
  match env.researchingFail with
  | some e => workerCatch env s tid e t1
  | none =>
    let s1 : WorkerState :=
      { s with store := updateTaskStatus s.store tid "researching" env.now [] }
    let t2 := t1 ++ [Effect.secretFetch]
    match env.secret with
    | Except.error e => workerCatch env s1 tid e t2
    | Except.ok _ =>
      let t3 := t2 ++ [Effect.providerCall topic]
      match env.provider with
      | Except.error e => workerCatch env s1 tid e t3
      | Except.ok content =>
        match content.find? (fun b => b.type == "text") with
        | none => workerCatch env s1 tid "Claude returned no text content" t3
        | some textBlock =>
          let s3Key := "research/" ++ tid ++ ".md"
          let t4 := t3 ++ [Effect.blobPut s3Key]
          match env.blobFail with
          | some e => workerCatch env s1 tid e t4
          | none =>
            let s2 : WorkerState :=
              { s1 with blobs := fun k =>
                  if k = s3Key then some (textBlock.text, "text/markdown")
                  else s1.blobs k }
            let t5 := t4 ++ [Effect.writeStatus tid "researched"]
            match env.researchedFail with
            | some e => workerCatch env s2 tid e t5
            | none =>
              let s3 : WorkerState :=
                { s2 with store := updateTaskStatus s2.store tid "researched"
                            env.now [("s3Key", s3Key)] }
              ⟨Except.ok (WorkerOutcome.researched tid s3Key), s3, t5⟩

/-- The try block of the Worker from the GetCommand on: idempotency guard,
then the main pipeline. -/
def workerTry (env : WorkerEnv) (s : WorkerState) (tid topic : String) :
    WorkerRun :=
  let t0 := [Effect.getTask tid]
  match env.getFail with
  | some e => workerCatch env s tid e t0
  | none =>
    match s.store tid with
    | some it =>
        if it "status" = some "researched" then
          ⟨Except.ok (WorkerOutcome.alreadyResearched tid), s, t0⟩
        else workerMain env s tid topic t0
    | none => workerMain env s tid topic t0

/-- Embedding of the Worker handler (researchWorker.js lines 71-193).  The
event is the list of record bodies (batchSize is 1; only the first record is
processed). -/
def handler (env : WorkerEnv) (s : WorkerState) (records : List Body) :
    WorkerRun :=
  match records with
  | [] => ⟨Except.ok WorkerOutcome.noRecords, s, []⟩
  | body :: _ =>
    match body with
    | Body.malformed => ⟨Except.error "Malformed SQS message body", s, []⟩
    | Body.parsed taskId topic =>
      if strFalsy taskId then
        ⟨Except.error "Missing taskId in SQS message", s, []⟩
      else
        let tid := taskId.getD ""
        if strFalsy topic then
          match env.markFailedFail with
          | some _ =>
              ⟨Except.ok WorkerOutcome.ackMissingTopic, s,
               [Effect.writeStatus tid "failed"]⟩
          | none =>
              ⟨Except.ok WorkerOutcome.ackMissingTopic,
               { s with store := updateTaskStatus s.store tid "failed" env.now
                          [("error", "Missing topic in SQS message")] },
               [Effect.writeStatus tid "failed"]⟩
        else workerTry env s tid (topic.getD "")

/-- A JSON value as far as the Accept handler inspects one. -/
inductive JsVal where
  | str (s : String)
  | num (n : Int)
  | boolean (b : Bool)
  | nullV
deriving DecidableEq, Repr

/-- JS falsiness of the `topic` field read off the parsed body. -/
def jsFalsy : Option JsVal → Bool
  | none => true
  | some (JsVal.str s) => s.isEmpty
  | some (JsVal.num n) => n == 0
  | some (JsVal.boolean b) => !b
  | some JsVal.nullV => true

/-- Parse outcome of the Accept request body. -/
inductive AcceptBody where
  | malformed
  | parsed (topic : Option JsVal)

/-- Response body of the Accept handler. -/
inductive RespBody where
  | failure (error : String)
  | accepted (taskId status message : String)
deriving DecidableEq, Repr

/-- An HTTP response of the Accept handler. -/
structure Response where
  statusCode : Nat
  body : RespBody
deriving DecidableEq, Repr

/-- World state the Accept handler reads and writes: the Task Store and the
work queue (list of published `(taskId, topic)` items). -/
structure AcceptState where
  store : Store
  queue : List (String × String)

/-- External calls attempted by an Accept run, in order. -/
inductive AcceptEffect where
  | putTask (taskId : String)
  | publish (taskId topic : String)
  | compensate (taskId : String)
deriving DecidableEq, Repr

/-- Outcomes of the external calls for one Accept run.  `taskId` is the
value of `randomUUID()`, `now` the creation timestamp, `now2` the timestamp
of the compensating write. -/
structure AcceptEnv where
  taskId : String
  now : String
  now2 : String
  putFail : Bool
  publishFail : Bool
  compensateFail : Bool

/-- Result of one Accept invocation. -/
structure AcceptRun where
  response : Response
  state : AcceptState
  trace : List AcceptEffect

/-- The Task record created by Accept (PutCommand, full item replace). -/
def pendingItem (taskId topic now : String) : Item :=
  fun f =>
    if f = "taskId" then some taskId
    else if f = "status" then some "pending"
    else if f = "topic" then some topic
    else if f = "createdAt" then some now
    else if f = "updatedAt" then some now
    else none

/-- Store write, publish and compensation of Accept on validated input. -/
def acceptMain (env : AcceptEnv) (s : AcceptState) (t : String) : AcceptRun :=
  let tr0 := [AcceptEffect.putTask env.taskId]
  if env.putFail then
    ⟨⟨500, RespBody.failure "Failed to create task record"⟩, s, tr0⟩
  else
    let s1 : AcceptState :=
      { s with store := fun k =>
          if k = env.taskId then some (pendingItem env.taskId t env.now)
          else s.store k }
    let tr1 := tr0 ++ [AcceptEffect.publish env.taskId t]
    if env.publishFail then
      let tr2 := tr1 ++ [AcceptEffect.compensate env.taskId]
      if env.compensateFail then
        ⟨⟨500, RespBody.failure "Failed to place message on queue"⟩, s1, tr2⟩
      else
        ⟨⟨500, RespBody.failure "Failed to place message on queue"⟩,
         { s1 with store := updateTaskStatus s1.store env.taskId "failed"
                     env.now2 [("error", "Failed to place message on queue")] },
         tr2⟩
    else
      ⟨⟨202, RespBody.accepted env.taskId "pending"
               "Research task queued for processing"⟩,
       { s1 with queue := s1.queue ++ [(env.taskId, t)] }, tr1⟩

/-- Embedding of the Accept handler (research.js, current version): parse
guard, presence/type check, length check, then create-then-publish with
best-effort compensation. -/
def accept (env : AcceptEnv) (s : AcceptState) (body : AcceptBody) :
    AcceptRun :=
  match body with
  | AcceptBody.malformed =>
      ⟨⟨400, RespBody.failure "Invalid JSON in request body"⟩, s, []⟩
  | AcceptBody.parsed topic =>
    if jsFalsy topic then
      ⟨⟨400, RespBody.failure "Missing required field: topic (must be a string)"⟩,
       s, []⟩
    else
      match topic with
      | some (JsVal.str t) =>
          if t.length > 500 then
            ⟨⟨400, RespBody.failure "topic must be 500 characters or fewer"⟩,
             s, []⟩
          else acceptMain env s t
      | _ =>
          ⟨⟨400, RespBody.failure "Missing required field: topic (must be a string)"⟩,
           s, []⟩

/-- Read one attribute of one stored task. -/
def fieldOf (store : Store) (taskId f : String) : Option String :=
  match store taskId with
  | some it => it f
  | none => none

/-- The stored status of a task. -/
def statusOf (store : Store) (taskId : String) : Option String :=
  fieldOf store taskId "status"

/-- The error thrown by the first failing step strictly between the
`researching` transition and the final status update, if any: secret fetch,
provider call, text-block scan, blob write, `researched` update, in program
order. -/
def midStepError (env : WorkerEnv) : Option String :=
  match env.secret with
  | Except.error e => some e
  | Except.ok _ =>
    match env.provider with
    | Except.error e => some e
    | Except.ok content =>
      match content.find? (fun b => b.type == "text") with
      | none => some "Claude returned no text content"
      | some _ =>
        match env.blobFail with
        | some e => some e
        | none => env.researchedFail

/-- A Worker environment in which every external call succeeds and the
provider returns one text block. -/
def envAllOk : WorkerEnv :=
  ⟨"T2", none, none, Except.ok "sk-key",
   Except.ok [⟨"text", "RESEARCH"⟩], none, none, none⟩

/-- An empty world for the Worker. -/
def emptyWorkerState : WorkerState := ⟨fun _ => none, fun _ => none⟩

/-- A stored task that already reached `researched`. -/
def researchedItem : Item := fun f =>
  if f = "taskId" then some "t1"
  else if f = "status" then some "researched"
  else if f = "topic" then some "cats"
  else if f = "createdAt" then some "T0"
  else if f = "updatedAt" then some "T1"
  else if f = "s3Key" then some "research/t1.md"
  else none

/-- A world whose only task `t1` is already `researched`. -/
def researchedState : WorkerState :=
  ⟨fun k => if k = "t1" then some researchedItem else none, fun _ => none⟩

/-- A stored task that already reached `failed`. -/
def failedItem : Item := fun f =>
  if f = "taskId" then some "t1"
  else if f = "status" then some "failed"
  else if f = "topic" then some "cats"
  else if f = "createdAt" then some "T0"
  else if f = "updatedAt" then some "T1"
  else if f = "error" then some "boom"
  else none

/-- A world whose only task `t1` is already `failed`. -/
def failedState : WorkerState :=
  ⟨fun k => if k = "t1" then some failedItem else none, fun _ => none⟩

/-- A Worker environment whose provider call throws and whose
failure-marking store write throws a different error. -/
def envDoubleFail : WorkerEnv :=
  ⟨"T3", none, none, Except.ok "sk-key", Except.error "API rate limited",
   none, none, some "DynamoDB down too"⟩

/-- A store holding one `pending` task `t1`. -/
def pendingStore : Store :=
  fun k => if k = "t1" then some (pendingItem "t1" "cats" "T0") else none

/-- A world whose only task `t1` is `pending`. -/
def pendingState : WorkerState := ⟨pendingStore, fun _ => none⟩

/-- A Worker environment whose provider answers with a tool-use block
followed by a text block. -/
def envMixed : WorkerEnv :=
  ⟨"T2", none, none, Except.ok "sk-key",
   Except.ok [⟨"tool_use", ""⟩, ⟨"text", "The actual research"⟩],
   none, none, none⟩

/-- A Worker environment whose provider answers with no text-typed block. -/
def envNoText : WorkerEnv :=
  ⟨"T2", none, none, Except.ok "sk-key", Except.ok [⟨"tool_use", ""⟩],
   none, none, none⟩

/-- An Accept environment in which every external call succeeds. -/
def accEnvOk : AcceptEnv := ⟨"task-1", "A0", "A1", false, false, false⟩

/-- An Accept environment whose queue publish fails but whose store calls
succeed. -/
def accEnvPublishFail : AcceptEnv := ⟨"task-1", "A0", "A1", false, true, false⟩

/-- An empty world for Accept. -/
def accState0 : AcceptState := ⟨fun _ => none, []⟩

lemma isEmpty_false_of_ne {s : String} (h : s ≠ "") : s.isEmpty = false := by
  cases he : s.isEmpty
  · rfl
  · exact absurd ((String.isEmpty_iff s).mp he) h

lemma applySet_notMem : ∀ (item : Item) (l : List (String × String)) (f : String),
    (∀ p ∈ l, f ≠ p.1) → applySet item l f = item f
  | _, [], _, _ => rfl
  | item, (k, v) :: rest, f, h => by
    have hk : f ≠ k := h (k, v) (List.mem_cons_self _ _)
    show applySet (setField item k v) rest f = item f
    rw [applySet_notMem (setField item k v) rest f
          (fun p hp => h p (List.mem_cons_of_mem _ hp))]
    simp [setField, hk]

lemma applySet_status (base : Item) (st now : String)
    (extra : List (String × String)) (h : ∀ p ∈ extra, "status" ≠ p.1) :
    applySet base (("status", st) :: ("updatedAt", now) :: extra) "status" =
      some st := by
  show applySet (setField (setField base "status" st) "updatedAt" now) extra
        "status" = some st
  rw [applySet_notMem _ _ _ h]
  simp [setField]

lemma applySet_updatedAt (base : Item) (st now : String)
    (extra : List (String × String)) (h : ∀ p ∈ extra, "updatedAt" ≠ p.1) :
    applySet base (("status", st) :: ("updatedAt", now) :: extra) "updatedAt" =
      some now := by
  show applySet (setField (setField base "status" st) "updatedAt" now) extra
        "updatedAt" = some now
  rw [applySet_notMem _ _ _ h]
  simp [setField]

lemma applySet_extra_single (base : Item) (st now k v : String) :
    applySet base [("status", st), ("updatedAt", now), (k, v)] k = some v := by
  show setField (setField (setField base "status" st) "updatedAt" now) k v k =
        some v
  simp [setField]

lemma fieldOf_update (store : Store) (tid st now : String)
    (extra : List (String × String)) (f : String) :
    fieldOf (updateTaskStatus store tid st now extra) tid f =
      applySet (baseItem store tid)
        (("status", st) :: ("updatedAt", now) :: extra) f := by
  unfold fieldOf updateTaskStatus
  simp

lemma fieldOf_update_other (store : Store) (tid st now : String)
    (extra : List (String × String)) (k f : String) (hk : k ≠ tid) :
    fieldOf (updateTaskStatus store tid st now extra) k f = fieldOf store k f := by
  unfold fieldOf updateTaskStatus
  simp [hk]

lemma workerCatch_result (env : WorkerEnv) (s : WorkerState)
    (tid err : String) (tr : List Effect) :
    (workerCatch env s tid err tr).result = Except.error err := by
  unfold workerCatch
  cases env.markFailedFail <;> rfl

lemma workerCatch_marks_failed (env : WorkerEnv) (s : WorkerState)
    (tid err : String) (tr : List Effect) (hmark : env.markFailedFail = none) :
    (workerCatch env s tid err tr).state.store =
      updateTaskStatus s.store tid "failed" env.now [("error", err)] := by
  unfold workerCatch
  rw [hmark]

lemma handler_valid_eq (env : WorkerEnv) (s : WorkerState) (tid topic : String)
    (htid : tid ≠ "") (htopic : topic ≠ "") :
    handler env s [Body.parsed (some tid) (some topic)] =
      workerTry env s tid topic := by
  simp [handler, strFalsy, isEmpty_false_of_ne htid, isEmpty_false_of_ne htopic]

lemma workerTry_skip (env : WorkerEnv) (s : WorkerState) (tid topic : String)
    (it : Item) (hget : env.getFail = none) (hit : s.store tid = some it)
    (hst : it "status" = some "researched") :
    workerTry env s tid topic =
      ⟨Except.ok (WorkerOutcome.alreadyResearched tid), s,
       [Effect.getTask tid]⟩ := by
  simp [workerTry, hget, hit, hst]

lemma workerTry_go (env : WorkerEnv) (s : WorkerState) (tid topic : String)
    (hget : env.getFail = none)
    (hguard : statusOf s.store tid ≠ some "researched") :
    workerTry env s tid topic =
      workerMain env s tid topic [Effect.getTask tid] := by
  unfold workerTry
  cases hs : s.store tid with
  | none => simp [hget, hs]
  | some it =>
    have hne : ¬ it "status" = some "researched" := by
      intro h
      exact hguard (by simp [statusOf, fieldOf, hs, h])
    simp [hget, hs, hne]

lemma workerCatch_trace (env : WorkerEnv) (s : WorkerState)
    (tid err : String) (tr : List Effect) :
    (workerCatch env s tid err tr).trace =
      tr ++ [Effect.writeStatus tid "failed"] := by
  unfold workerCatch
  cases env.markFailedFail <;> rfl

lemma workerMain_trace_researching (env : WorkerEnv) (s : WorkerState)
    (tid topic : String) (t0 : List Effect) :
    Effect.writeStatus tid "researching" ∈
      (workerMain env s tid topic t0).trace := by
  cases h1 : env.researchingFail with
  | some e => simp [workerMain, h1, workerCatch_trace]
  | none =>
    cases h2 : env.secret with
    | error e => simp [workerMain, h1, h2, workerCatch_trace]
    | ok key =>
      cases h3 : env.provider with
      | error e => simp [workerMain, h1, h2, h3, workerCatch_trace]
      | ok content =>
        cases h4 : content.find? (fun b => b.type == "text") with
        | none => simp [workerMain, h1, h2, h3, h4, workerCatch_trace]
        | some b =>
          cases h5 : env.blobFail with
          | some e => simp [workerMain, h1, h2, h3, h4, h5, workerCatch_trace]
          | none =>
            cases h6 : env.researchedFail with
            | some e => simp [workerMain, h1, h2, h3, h4, h5, h6, workerCatch_trace]
            | none => simp [workerMain, h1, h2, h3, h4, h5, h6]

lemma acceptMain_store_frame (env : AcceptEnv) (s : AcceptState)
    (t k : String) (hk : k ≠ env.taskId) :
    (acceptMain env s t).state.store k = s.store k := by
  unfold acceptMain
  cases env.putFail <;> cases env.publishFail <;> cases env.compensateFail <;>
    simp [updateTaskStatus, hk]

lemma accept_store_frame (env : AcceptEnv) (s : AcceptState)
    (body : AcceptBody) (k : String) (hk : k ≠ env.taskId) :
    (accept env s body).state.store k = s.store k := by
  cases body with
  | malformed => rfl
  | parsed topic =>
    cases topic with
    | none => rfl
    | some v =>
      cases v with
      | str t =>
        cases hf : jsFalsy (some (JsVal.str t)) with
        | true => simp [accept, hf]
        | false =>
          by_cases hl : t.length > 500
          · simp [accept, hf, hl]
          · simp [accept, hf, hl, acceptMain_store_frame env s t k hk]
      | num n => cases hf : jsFalsy (some (JsVal.num n)) <;> simp [accept, hf]
      | boolean b =>
          cases hf : jsFalsy (some (JsVal.boolean b)) <;> simp [accept, hf]
      | nullV => rfl

lemma statusOf_researched_elim {s : WorkerState} {tid : String}
    (hres : statusOf s.store tid = some "researched") :
    ∃ it, s.store tid = some it ∧ it "status" = some "researched" := by
  unfold statusOf fieldOf at hres
  cases hs : s.store tid with
  | none => rw [hs] at hres; exact absurd hres (by simp)
  | some it => rw [hs] at hres; exact ⟨it, rfl, hres⟩

/-- Claim C2: for a work item whose task is already `researched`, a
redelivery (whose guard read succeeds) performs no provider call, no blob
write and no status write — the only attempted external call is the guard
read — returns the already-complete outcome, and leaves the world state,
in particular the Task record, unchanged. -/
theorem worker_idempotent_redelivery (env : WorkerEnv) (s : WorkerState)
    (tid topic : String) (htid : tid ≠ "") (htopic : topic ≠ "")
    (hget : env.getFail = none)
    (hres : statusOf s.store tid = some "researched") :
    (handler env s [Body.parsed (some tid) (some topic)]).result =
      Except.ok (WorkerOutcome.alreadyResearched tid) ∧
    (handler env s [Body.parsed (some tid) (some topic)]).state = s ∧
    (handler env s [Body.parsed (some tid) (some topic)]).trace =
      [Effect.getTask tid] := by
  obtain ⟨it, hit, hst⟩ := statusOf_researched_elim hres
  rw [handler_valid_eq env s tid topic htid htopic,
      workerTry_skip env s tid topic it hget hit hst]
  exact ⟨rfl, rfl, rfl⟩

/-- Witness for C2 at a concrete already-researched task. -/
theorem worker_idempotent_redelivery_witness :
    (handler envAllOk researchedState
        [Body.parsed (some "t1") (some "cats")]).result =
      Except.ok (WorkerOutcome.alreadyResearched "t1") ∧
    (handler envAllOk researchedState
        [Body.parsed (some "t1") (some "cats")]).state = researchedState ∧
    (handler envAllOk researchedState
        [Body.parsed (some "t1") (some "cats")]).trace =
      [Effect.getTask "t1"] :=
  worker_idempotent_redelivery envAllOk researchedState "t1" "cats"
    (by decide) (by decide) rfl (by decide)

/-- Claim C4: a work item whose body does not parse, or parses without a
`taskId`, makes the Worker throw with an empty effect trace — no Task Store
write, no secret fetch, no provider call, no blob write — and an unchanged
world state. -/
theorem worker_poison_no_side_effects (env : WorkerEnv) (s : WorkerState)
    (body : Body)
    (h : body = Body.malformed ∨ ∃ topic, body = Body.parsed none topic) :
    ((handler env s [body]).result =
        Except.error "Malformed SQS message body" ∨
     (handler env s [body]).result =
        Except.error "Missing taskId in SQS message") ∧
    (handler env s [body]).state = s ∧
    (handler env s [body]).trace = [] := by
  rcases h with h | ⟨topic, h⟩ <;> subst h
  · exact ⟨Or.inl rfl, rfl, rfl⟩
  · exact ⟨Or.inr rfl, rfl, rfl⟩

/-- Witness for C4 at a concrete malformed body. -/
theorem worker_poison_no_side_effects_witness :
    ((handler envAllOk emptyWorkerState [Body.malformed]).result =
        Except.error "Malformed SQS message body" ∨
     (handler envAllOk emptyWorkerState [Body.malformed]).result =
        Except.error "Missing taskId in SQS message") ∧
    (handler envAllOk emptyWorkerState [Body.malformed]).state =
      emptyWorkerState ∧
    (handler envAllOk emptyWorkerState [Body.malformed]).trace = [] :=
  worker_poison_no_side_effects envAllOk emptyWorkerState Body.malformed
    (Or.inl rfl)

/-- Claim C5: a work item with a `taskId` but no `topic` makes the Worker
return normally (acknowledging, never throwing, even when the
failure-marking write itself fails), and when that write succeeds the Task
record holds `status = failed` with the descriptive error. -/
theorem worker_missing_topic_ack (env : WorkerEnv) (s : WorkerState)
    (tid : String) (htid : tid ≠ "") :
    (handler env s [Body.parsed (some tid) none]).result =
      Except.ok WorkerOutcome.ackMissingTopic ∧
    (env.markFailedFail = none →
      statusOf (handler env s [Body.parsed (some tid) none]).state.store tid =
        some "failed" ∧
      fieldOf (handler env s [Body.parsed (some tid) none]).state.store tid
        "error" = some "Missing topic in SQS message") := by
  have hie : tid.isEmpty = false := isEmpty_false_of_ne htid
  cases hm : env.markFailedFail with
  | some e =>
    refine ⟨by simp [handler, strFalsy, hie, hm], ?_⟩
    intro h
    simp [hm] at h
  | none =>
    have hstore : (handler env s [Body.parsed (some tid) none]).state.store =
        updateTaskStatus s.store tid "failed" env.now
          [("error", "Missing topic in SQS message")] := by
      simp [handler, strFalsy, hie, hm]
    refine ⟨by simp [handler, strFalsy, hie, hm], fun _ => ⟨?_, ?_⟩⟩
    · unfold statusOf
      rw [hstore, fieldOf_update]
      exact applySet_status _ _ _ _
        (by rintro p hp; simp only [List.mem_singleton] at hp; subst hp; decide)
    · rw [hstore, fieldOf_update]
      exact applySet_extra_single _ _ _ _ _

/-- Witness for C5 at a concrete topicless item. -/
theorem worker_missing_topic_ack_witness :
    (handler envAllOk emptyWorkerState [Body.parsed (some "t1") none]).result =
      Except.ok WorkerOutcome.ackMissingTopic ∧
    (envAllOk.markFailedFail = none →
      statusOf (handler envAllOk emptyWorkerState
          [Body.parsed (some "t1") none]).state.store "t1" = some "failed" ∧
      fieldOf (handler envAllOk emptyWorkerState
          [Body.parsed (some "t1") none]).state.store "t1" "error" =
        some "Missing topic in SQS message") :=
  worker_missing_topic_ack envAllOk emptyWorkerState "t1" (by decide)

/-- Counterexample to claim C1 as stated: task `t1` is in the terminal
state `failed`, yet a Worker redelivery of its work item writes `status`
again — first `researching`, and the run even ends with the task
`researched`, a transition out of a terminal state. -/
theorem status_terminal_counterexample :
    statusOf failedState.store "t1" = some "failed" ∧
    Effect.writeStatus "t1" "researching" ∈
      (handler envAllOk failedState
        [Body.parsed (some "t1") (some "cats")]).trace ∧
    statusOf (handler envAllOk failedState
        [Body.parsed (some "t1") (some "cats")]).state.store "t1" =
      some "researched" :=
  ⟨by decide, by decide, by decide⟩

/-- Claim C1 (amended): `researched` is write-terminal — a well-formed
redelivery whose guard read succeeds performs no further status write for
that task, and Accept never writes any record other than the freshly
generated taskId's — but `failed` is not: the Worker's idempotency guard
skips only `researched`, so a redelivery of a work item whose task is
`failed` reprocesses it and writes `status` again, beginning with
`researching`. -/
theorem status_terminal_amended :
    (∀ (env : WorkerEnv) (s : WorkerState) (tid topic : String),
      tid ≠ "" → topic ≠ "" → env.getFail = none →
      statusOf s.store tid = some "researched" →
      ∀ t st, Effect.writeStatus t st ∉
        (handler env s [Body.parsed (some tid) (some topic)]).trace) ∧
    (∀ (env : AcceptEnv) (s : AcceptState) (body : AcceptBody) (k : String),
      k ≠ env.taskId → (accept env s body).state.store k = s.store k) ∧
    (∀ (env : WorkerEnv) (s : WorkerState) (tid topic : String),
      tid ≠ "" → topic ≠ "" → env.getFail = none →
      statusOf s.store tid = some "failed" →
      Effect.writeStatus tid "researching" ∈
        (handler env s [Body.parsed (some tid) (some topic)]).trace) := by
  refine ⟨?_, ?_, ?_⟩
  · intro env s tid topic htid htopic hget hres t st
    obtain ⟨it, hit, hst⟩ := statusOf_researched_elim hres
    rw [handler_valid_eq env s tid topic htid htopic,
        workerTry_skip env s tid topic it hget hit hst]
    simp
  · exact fun env s body k hk => accept_store_frame env s body k hk
  · intro env s tid topic htid htopic hget hres
    have hguard : statusOf s.store tid ≠ some "researched" := by
      rw [hres]; simp
    rw [handler_valid_eq env s tid topic htid htopic,
        workerTry_go env s tid topic hget hguard]
    exact workerMain_trace_researching env s tid topic _

/-- Witness for C1 (amended) at concrete researched and failed tasks. -/
theorem status_terminal_amended_witness :
    Effect.writeStatus "t1" "researching" ∉
      (handler envAllOk researchedState
        [Body.parsed (some "t1") (some "cats")]).trace ∧
    (accept accEnvOk accState0
        (AcceptBody.parsed (some (JsVal.str "cats")))).state.store "other" =
      accState0.store "other" ∧
    Effect.writeStatus "t1" "researching" ∈
      (handler envAllOk failedState
        [Body.parsed (some "t1") (some "cats")]).trace := by
  obtain ⟨h1, h2, h3⟩ := status_terminal_amended
  exact ⟨h1 envAllOk researchedState "t1" "cats" (by decide) (by decide) rfl
           (by decide) "t1" "researching",
         h2 accEnvOk accState0 (AcceptBody.parsed (some (JsVal.str "cats")))
           "other" (by decide),
         h3 envAllOk failedState "t1" "cats" (by decide) (by decide) rfl
           (by decide)⟩

lemma workerMain_mid_error (env : WorkerEnv) (s : WorkerState)
    (tid topic : String) (t0 : List Effect) (E : String)
    (hres : env.researchingFail = none)
    (hmid : midStepError env = some E) :
    (workerMain env s tid topic t0).result = Except.error E := by
  cases h2 : env.secret with
  | error e =>
    simp [midStepError, h2] at hmid
    simp [workerMain, hres, h2, workerCatch_result, hmid]
  | ok key =>
    cases h3 : env.provider with
    | error e =>
      simp [midStepError, h2, h3] at hmid
      simp [workerMain, hres, h2, h3, workerCatch_result, hmid]
    | ok content =>
      cases h4 : content.find? (fun b => b.type == "text") with
      | none =>
        simp [midStepError, h2, h3, h4] at hmid
        simp [workerMain, hres, h2, h3, h4, workerCatch_result, hmid]
      | some b =>
        cases h5 : env.blobFail with
        | some e =>
          simp [midStepError, h2, h3, h4, h5] at hmid
          simp [workerMain, hres, h2, h3, h4, h5, workerCatch_result, hmid]
        | none =>
          simp [midStepError, h2, h3, h4, h5] at hmid
          simp [workerMain, hres, h2, h3, h4, h5, hmid, workerCatch_result]

/-- Claim C3: when a step between the `researching` transition and the
final status update throws error E, and the failure-marking write itself
throws a different error E2, the error escalated to the runtime is exactly
E, never E2. -/
theorem worker_double_failure_preserves_error (env : WorkerEnv)
    (s : WorkerState) (tid topic E E2 : String)
    (htid : tid ≠ "") (htopic : topic ≠ "")
    (hget : env.getFail = none)
    (hguard : statusOf s.store tid ≠ some "researched")
    (hres : env.researchingFail = none)
    (hmid : midStepError env = some E)
    (_hmark : env.markFailedFail = some E2)
    (hne : E2 ≠ E) :
    (handler env s [Body.parsed (some tid) (some topic)]).result =
      Except.error E ∧
    (handler env s [Body.parsed (some tid) (some topic)]).result ≠
      Except.error E2 := by
  have h := workerMain_mid_error env s tid topic [Effect.getTask tid] E hres
    hmid
  rw [handler_valid_eq env s tid topic htid htopic,
      workerTry_go env s tid topic hget hguard]
  refine ⟨h, ?_⟩
  rw [h]
  intro hc
  injection hc with hc
  exact hne hc.symm

/-- Witness for C3: provider throws "API rate limited", the failure-marking
write throws "DynamoDB down too", and "API rate limited" is escalated. -/
theorem worker_double_failure_preserves_error_witness :
    (handler envDoubleFail pendingState
        [Body.parsed (some "t1") (some "cats")]).result =
      Except.error "API rate limited" ∧
    (handler envDoubleFail pendingState
        [Body.parsed (some "t1") (some "cats")]).result ≠
      Except.error "DynamoDB down too" :=
  worker_double_failure_preserves_error envDoubleFail pendingState "t1" "cats"
    "API rate limited" "DynamoDB down too" (by decide) (by decide) rfl
    (by decide) rfl (by decide) rfl (by decide)

lemma accept_nonstring (env : AcceptEnv) (s : AcceptState) (v : JsVal)
    (hv : ∀ str, v ≠ JsVal.str str) :
    accept env s (AcceptBody.parsed (some v)) =
      ⟨⟨400, RespBody.failure
          "Missing required field: topic (must be a string)"⟩, s, []⟩ := by
  cases v with
  | str t => exact absurd rfl (hv t)
  | num n => cases hf : jsFalsy (some (JsVal.num n)) <;> simp [accept, hf]
  | boolean b =>
      cases hf : jsFalsy (some (JsVal.boolean b)) <;> simp [accept, hf]
  | nullV => rfl

lemma accept_overlong (env : AcceptEnv) (s : AcceptState) (t : String)
    (hl : t.length > 500) :
    accept env s (AcceptBody.parsed (some (JsVal.str t))) =
      ⟨⟨400, RespBody.failure "topic must be 500 characters or fewer"⟩,
       s, []⟩ := by
  have hne : t ≠ "" := by
    intro h
    subst h
    simp at hl
  simp [accept, jsFalsy, isEmpty_false_of_ne hne, hl]

/-- Claim C6: a request whose body does not parse, or whose `topic` is
absent or not a string, or whose `topic` is longer than 500 characters,
gets a 400 response with an error body, and Accept performs no store write
and no queue publish (empty effect trace, unchanged state). -/
theorem accept_rejects_invalid (env : AcceptEnv) (s : AcceptState)
    (body : AcceptBody)
    (h : body = AcceptBody.malformed ∨
         body = AcceptBody.parsed none ∨
         (∃ v, body = AcceptBody.parsed (some v) ∧
            ∀ str, v ≠ JsVal.str str) ∨
         (∃ t, body = AcceptBody.parsed (some (JsVal.str t)) ∧
            t.length > 500)) :
    (accept env s body).response.statusCode = 400 ∧
    (∃ e, (accept env s body).response.body = RespBody.failure e) ∧
    (accept env s body).state = s ∧
    (accept env s body).trace = [] := by
  rcases h with h | h | ⟨v, h, hv⟩ | ⟨t, h, hl⟩ <;> subst h
  · exact ⟨rfl, ⟨_, rfl⟩, rfl, rfl⟩
  · exact ⟨rfl, ⟨_, rfl⟩, rfl, rfl⟩
  · rw [accept_nonstring env s v hv]
    exact ⟨rfl, ⟨_, rfl⟩, rfl, rfl⟩
  · rw [accept_overlong env s t hl]
    exact ⟨rfl, ⟨_, rfl⟩, rfl, rfl⟩

/-- Witness for C6 at a concrete unparsable body. -/
theorem accept_rejects_invalid_witness :
    (accept accEnvOk accState0 AcceptBody.malformed).response.statusCode =
      400 ∧
    (∃ e, (accept accEnvOk accState0 AcceptBody.malformed).response.body =
      RespBody.failure e) ∧
    (accept accEnvOk accState0 AcceptBody.malformed).state = accState0 ∧
    (accept accEnvOk accState0 AcceptBody.malformed).trace = [] :=
  accept_rejects_invalid accEnvOk accState0 AcceptBody.malformed (Or.inl rfl)

/-- Claim C7: a valid topic (non-empty string of length at most 500) whose
store write and publish succeed yields a 202 carrying the freshly generated
taskId and pending status; the created record holds that taskId, pending
status, the topic, and equal creation and update timestamps; the published
work item is exactly `(taskId, topic)`. -/
theorem accept_success_path (env : AcceptEnv) (s : AcceptState) (t : String)
    (hne : t ≠ "") (hlen : t.length ≤ 500)
    (hput : env.putFail = false) (hpub : env.publishFail = false) :
    (accept env s (AcceptBody.parsed (some (JsVal.str t)))).response =
      ⟨202, RespBody.accepted env.taskId "pending"
        "Research task queued for processing"⟩ ∧
    (∃ it, (accept env s
          (AcceptBody.parsed (some (JsVal.str t)))).state.store env.taskId =
        some it ∧
      it "taskId" = some env.taskId ∧
      it "status" = some "pending" ∧
      it "topic" = some t ∧
      it "createdAt" = some env.now ∧
      it "updatedAt" = some env.now) ∧
    (accept env s (AcceptBody.parsed (some (JsVal.str t)))).state.queue =
      s.queue ++ [(env.taskId, t)] := by
  have hie : t.isEmpty = false := isEmpty_false_of_ne hne
  have hnl : ¬ t.length > 500 := by omega
  have h1 : (accept env s (AcceptBody.parsed (some (JsVal.str t)))).response =
      ⟨202, RespBody.accepted env.taskId "pending"
        "Research task queued for processing"⟩ := by
    simp [accept, jsFalsy, hie, hnl, acceptMain, hput, hpub]
  have h2 : (accept env s
      (AcceptBody.parsed (some (JsVal.str t)))).state.store env.taskId =
      some (pendingItem env.taskId t env.now) := by
    simp [accept, jsFalsy, hie, hnl, acceptMain, hput, hpub]
  have h3 : (accept env s
      (AcceptBody.parsed (some (JsVal.str t)))).state.queue =
      s.queue ++ [(env.taskId, t)] := by
    simp [accept, jsFalsy, hie, hnl, acceptMain, hput, hpub]
  exact ⟨h1, ⟨pendingItem env.taskId t env.now, h2, rfl, rfl, rfl, rfl, rfl⟩,
         h3⟩

/-- Witness for C7 at a concrete valid topic. -/
theorem accept_success_path_witness :
    (accept accEnvOk accState0
        (AcceptBody.parsed (some (JsVal.str "cats")))).response =
      ⟨202, RespBody.accepted accEnvOk.taskId "pending"
        "Research task queued for processing"⟩ ∧
    (∃ it, (accept accEnvOk accState0
          (AcceptBody.parsed (some (JsVal.str "cats")))).state.store
        accEnvOk.taskId = some it ∧
      it "taskId" = some accEnvOk.taskId ∧
      it "status" = some "pending" ∧
      it "topic" = some "cats" ∧
      it "createdAt" = some accEnvOk.now ∧
      it "updatedAt" = some accEnvOk.now) ∧
    (accept accEnvOk accState0
        (AcceptBody.parsed (some (JsVal.str "cats")))).state.queue =
      accState0.queue ++ [(accEnvOk.taskId, "cats")] :=
  accept_success_path accEnvOk accState0 "cats" (by decide) (by decide)
    rfl rfl

/-- Claim C9: when the store write succeeds but the publish fails, Accept
responds 500 (whether or not the compensating write succeeds), publishes
nothing, and — when the compensating write succeeds — the just-created
record ends `failed` with the diagnostic error set. -/
theorem accept_publish_failure_compensation (env : AcceptEnv)
    (s : AcceptState) (t : String)
    (hne : t ≠ "") (hlen : t.length ≤ 500)
    (hput : env.putFail = false) (hpub : env.publishFail = true) :
    (accept env s (AcceptBody.parsed (some (JsVal.str t)))).response =
      ⟨500, RespBody.failure "Failed to place message on queue"⟩ ∧
    (accept env s (AcceptBody.parsed (some (JsVal.str t)))).state.queue =
      s.queue ∧
    (env.compensateFail = false →
      statusOf (accept env s
          (AcceptBody.parsed (some (JsVal.str t)))).state.store env.taskId =
        some "failed" ∧
      fieldOf (accept env s
          (AcceptBody.parsed (some (JsVal.str t)))).state.store env.taskId
        "error" = some "Failed to place message on queue") := by
  have hie : t.isEmpty = false := isEmpty_false_of_ne hne
  have hnl : ¬ t.length > 500 := by omega
  refine ⟨?_, ?_, ?_⟩
  · cases hc : env.compensateFail <;>
      simp [accept, jsFalsy, hie, hnl, acceptMain, hput, hpub, hc]
  · cases hc : env.compensateFail <;>
      simp [accept, jsFalsy, hie, hnl, acceptMain, hput, hpub, hc,
            updateTaskStatus]
  · intro hc
    have hstore : (accept env s
        (AcceptBody.parsed (some (JsVal.str t)))).state.store =
        updateTaskStatus
          (fun k => if k = env.taskId then
              some (pendingItem env.taskId t env.now) else s.store k)
          env.taskId "failed" env.now2
          [("error", "Failed to place message on queue")] := by
      simp [accept, jsFalsy, hie, hnl, acceptMain, hput, hpub, hc]
    constructor
    · unfold statusOf
      rw [hstore, fieldOf_update]
      exact applySet_status _ _ _ _
        (by rintro p hp; simp only [List.mem_singleton] at hp; subst hp;
            decide)
    · rw [hstore, fieldOf_update]
      exact applySet_extra_single _ _ _ _ _

/-- Witness for C9 at a concrete valid topic with a failing publish. -/
theorem accept_publish_failure_compensation_witness :
    (accept accEnvPublishFail accState0
        (AcceptBody.parsed (some (JsVal.str "cats")))).response =
      ⟨500, RespBody.failure "Failed to place message on queue"⟩ ∧
    (accept accEnvPublishFail accState0
        (AcceptBody.parsed (some (JsVal.str "cats")))).state.queue =
      accState0.queue ∧
    (accEnvPublishFail.compensateFail = false →
      statusOf (accept accEnvPublishFail accState0
          (AcceptBody.parsed (some (JsVal.str "cats")))).state.store
        accEnvPublishFail.taskId = some "failed" ∧
      fieldOf (accept accEnvPublishFail accState0
          (AcceptBody.parsed (some (JsVal.str "cats")))).state.store
        accEnvPublishFail.taskId "error" =
        some "Failed to place message on queue") :=
  accept_publish_failure_compensation accEnvPublishFail accState0 "cats"
    (by decide) (by decide) rfl rfl

lemma find?_first_text (pre : List ContentBlock) (b : ContentBlock)
    (post : List ContentBlock) (hpre : ∀ x ∈ pre, x.type ≠ "text")
    (hb : b.type = "text") :
    (pre ++ b :: post).find? (fun x => x.type == "text") = some b := by
  induction pre with
  | nil =>
    exact List.find?_cons_of_pos _ (by simp [hb])
  | cons a rest ih =>
    rw [List.cons_append,
        List.find?_cons_of_neg _
          (by simp [hpre a (List.mem_cons_self a rest)])]
    exact ih (fun x hx => hpre x (List.mem_cons_of_mem _ hx))

lemma find?_no_text (content : List ContentBlock)
    (h : ∀ x ∈ content, x.type ≠ "text") :
    content.find? (fun x => x.type == "text") = none :=
  List.find?_eq_none.mpr (fun x hx => by simp [h x hx])

/-- Claim C8: on a valid work item of a not-yet-researched task, the Worker
takes the first text-typed provider block as the artifact body (ignoring
non-text blocks before it), writes it to `research/{taskId}.md` as
markdown, sets the record to `researched` with that `s3Key`, and returns
the success outcome; with no text-typed block at all it fails the task with
the provider-contract error instead. -/
theorem worker_text_extraction :
    (∀ (env : WorkerEnv) (s : WorkerState) (tid topic : String)
       (pre : List ContentBlock) (b : ContentBlock)
       (post : List ContentBlock),
      tid ≠ "" → topic ≠ "" → env.getFail = none →
      statusOf s.store tid ≠ some "researched" →
      env.researchingFail = none →
      (∃ k, env.secret = Except.ok k) →
      env.provider = Except.ok (pre ++ b :: post) →
      (∀ x ∈ pre, x.type ≠ "text") → b.type = "text" →
      env.blobFail = none → env.researchedFail = none →
      (handler env s [Body.parsed (some tid) (some topic)]).result =
        Except.ok (WorkerOutcome.researched tid
          ("research/" ++ tid ++ ".md")) ∧
      (handler env s [Body.parsed (some tid) (some topic)]).state.blobs
          ("research/" ++ tid ++ ".md") = some (b.text, "text/markdown") ∧
      statusOf (handler env s
          [Body.parsed (some tid) (some topic)]).state.store tid =
        some "researched" ∧
      fieldOf (handler env s
          [Body.parsed (some tid) (some topic)]).state.store tid "s3Key" =
        some ("research/" ++ tid ++ ".md")) ∧
    (∀ (env : WorkerEnv) (s : WorkerState) (tid topic : String)
       (content : List ContentBlock),
      tid ≠ "" → topic ≠ "" → env.getFail = none →
      statusOf s.store tid ≠ some "researched" →
      env.researchingFail = none →
      (∃ k, env.secret = Except.ok k) →
      env.provider = Except.ok content →
      (∀ x ∈ content, x.type ≠ "text") →
      (handler env s [Body.parsed (some tid) (some topic)]).result =
        Except.error "Claude returned no text content" ∧
      (env.markFailedFail = none →
        statusOf (handler env s
            [Body.parsed (some tid) (some topic)]).state.store tid =
          some "failed" ∧
        fieldOf (handler env s
            [Body.parsed (some tid) (some topic)]).state.store tid "error" =
          some "Claude returned no text content")) := by
  constructor
  · intro env s tid topic pre b post htid htopic hget hguard hres hsec hprov
      hpre hb hblob hupd
    obtain ⟨key, hsec⟩ := hsec
    have hfind := find?_first_text pre b post hpre hb
    rw [handler_valid_eq env s tid topic htid htopic,
        workerTry_go env s tid topic hget hguard]
    have hstore : (workerMain env s tid topic
        [Effect.getTask tid]).state.store =
        updateTaskStatus
          (updateTaskStatus s.store tid "researching" env.now [])
          tid "researched" env.now
          [("s3Key", "research/" ++ tid ++ ".md")] := by
      simp [workerMain, hres, hsec, hprov, hfind, hblob, hupd]
    refine ⟨?_, ?_, ?_, ?_⟩
    · simp [workerMain, hres, hsec, hprov, hfind, hblob, hupd]
    · simp [workerMain, hres, hsec, hprov, hfind, hblob, hupd]
    · unfold statusOf
      rw [hstore, fieldOf_update]
      exact applySet_status _ _ _ _
        (by rintro p hp; simp only [List.mem_singleton] at hp; subst hp;
            simp)
    · rw [hstore, fieldOf_update]
      exact applySet_extra_single _ _ _ _ _
  · intro env s tid topic content htid htopic hget hguard hres hsec hprov
      hnone
    obtain ⟨key, hsec⟩ := hsec
    have hfind := find?_no_text content hnone
    rw [handler_valid_eq env s tid topic htid htopic,
        workerTry_go env s tid topic hget hguard]
    constructor
    · simp [workerMain, hres, hsec, hprov, hfind, workerCatch_result]
    · intro hmark
      have hstore : (workerMain env s tid topic
          [Effect.getTask tid]).state.store =
          updateTaskStatus
            (updateTaskStatus s.store tid "researching" env.now [])
            tid "failed" env.now
            [("error", "Claude returned no text content")] := by
        simp [workerMain, hres, hsec, hprov, hfind, workerCatch, hmark]
      constructor
      · unfold statusOf
        rw [hstore, fieldOf_update]
        exact applySet_status _ _ _ _
          (by rintro p hp; simp only [List.mem_singleton] at hp; subst hp;
              decide)
      · rw [hstore, fieldOf_update]
        exact applySet_extra_single _ _ _ _ _

/-- Witness for C8 at a mixed tool-use/text response and at a response
with no text block. -/
theorem worker_text_extraction_witness :
    ((handler envMixed pendingState
        [Body.parsed (some "t1") (some "cats")]).result =
      Except.ok (WorkerOutcome.researched "t1"
        ("research/" ++ "t1" ++ ".md")) ∧
     (handler envMixed pendingState
        [Body.parsed (some "t1") (some "cats")]).state.blobs
        ("research/" ++ "t1" ++ ".md") =
      some ("The actual research", "text/markdown") ∧
     statusOf (handler envMixed pendingState
        [Body.parsed (some "t1") (some "cats")]).state.store "t1" =
      some "researched" ∧
     fieldOf (handler envMixed pendingState
        [Body.parsed (some "t1") (some "cats")]).state.store "t1" "s3Key" =
      some ("research/" ++ "t1" ++ ".md")) ∧
    ((handler envNoText pendingState
        [Body.parsed (some "t1") (some "cats")]).result =
      Except.error "Claude returned no text content" ∧
     (envNoText.markFailedFail = none →
      statusOf (handler envNoText pendingState
          [Body.parsed (some "t1") (some "cats")]).state.store "t1" =
        some "failed" ∧
      fieldOf (handler envNoText pendingState
          [Body.parsed (some "t1") (some "cats")]).state.store "t1"
        "error" = some "Claude returned no text content")) := by
  obtain ⟨h1, h2⟩ := worker_text_extraction
  exact ⟨h1 envMixed pendingState "t1" "cats" [⟨"tool_use", ""⟩]
           ⟨"text", "The actual research"⟩ [] (by decide) (by decide) rfl
           (by decide) rfl ⟨"sk-key", rfl⟩ rfl (by decide) rfl rfl rfl,
         h2 envNoText pendingState "t1" "cats" [⟨"tool_use", ""⟩]
           (by decide) (by decide) rfl (by decide) rfl ⟨"sk-key", rfl⟩ rfl
           (by decide)⟩

/-- Claim C10: every Worker status transition is a targeted field-level
update — it sets exactly `status`, `updatedAt`, and the supplied extra
fields (`s3Key` or `error`, the only extras the Worker ever passes), and
leaves every other attribute of the Task record, in particular `taskId`,
`topic` and `createdAt`, unchanged; records of other tasks are untouched. -/
theorem updateTaskStatus_frame (store : Store) (tid st now : String)
    (extra : List (String × String)) (it : Item)
    (hit : store tid = some it)
    (hshape : extra = [] ∨ (∃ v, extra = [("s3Key", v)]) ∨
              (∃ v, extra = [("error", v)])) :
    (∀ k, k ≠ tid → updateTaskStatus store tid st now extra k = store k) ∧
    ∃ it2, updateTaskStatus store tid st now extra tid = some it2 ∧
      it2 "status" = some st ∧
      it2 "updatedAt" = some now ∧
      (∀ p ∈ extra, it2 p.1 = some p.2) ∧
      it2 "taskId" = it "taskId" ∧
      it2 "topic" = it "topic" ∧
      it2 "createdAt" = it "createdAt" ∧
      (∀ f, f ≠ "status" → f ≠ "updatedAt" → (∀ p ∈ extra, f ≠ p.1) →
        it2 f = it f) := by
  have hbase : baseItem store tid = it := by simp [baseItem, hit]
  have hextra : ∀ (f : String), f ≠ "s3Key" → f ≠ "error" →
      ∀ p ∈ extra, f ≠ p.1 := by
    rcases hshape with rfl | ⟨v, rfl⟩ | ⟨v, rfl⟩
    · intro f _ _ p hp
      simp at hp
    · intro f h1 _ p hp
      simp only [List.mem_singleton] at hp
      subst hp
      exact h1
    · intro f _ h2 p hp
      simp only [List.mem_singleton] at hp
      subst hp
      exact h2
  have hall : ∀ f, f ≠ "status" → f ≠ "updatedAt" →
      (∀ p ∈ extra, f ≠ p.1) →
      applySet it (("status", st) :: ("updatedAt", now) :: extra) f = it f := by
    intro f h1 h2 h3
    apply applySet_notMem
    intro p hp
    rcases List.mem_cons.mp hp with rfl | hp
    · exact h1
    rcases List.mem_cons.mp hp with rfl | hp
    · exact h2
    · exact h3 p hp
  have hset : ∀ p ∈ extra,
      applySet it (("status", st) :: ("updatedAt", now) :: extra) p.1 =
        some p.2 := by
    rcases hshape with rfl | ⟨v, rfl⟩ | ⟨v, rfl⟩
    · intro p hp
      simp at hp
    · intro p hp
      simp only [List.mem_singleton] at hp
      subst hp
      exact applySet_extra_single it st now "s3Key" v
    · intro p hp
      simp only [List.mem_singleton] at hp
      subst hp
      exact applySet_extra_single it st now "error" v
  refine ⟨fun k hk => by simp [updateTaskStatus, hk],
    applySet it (("status", st) :: ("updatedAt", now) :: extra),
    by simp [updateTaskStatus, hbase],
    applySet_status it st now extra
      (fun p hp => hextra "status" (by decide) (by decide) p hp),
    applySet_updatedAt it st now extra
      (fun p hp => hextra "updatedAt" (by decide) (by decide) p hp),
    hset,
    hall "taskId" (by decide) (by decide)
      (hextra "taskId" (by decide) (by decide)),
    hall "topic" (by decide) (by decide)
      (hextra "topic" (by decide) (by decide)),
    hall "createdAt" (by decide) (by decide)
      (hextra "createdAt" (by decide) (by decide)),
    hall⟩

/-- Witness for C10 at the concrete `researched` transition of task `t1`. -/
theorem updateTaskStatus_frame_witness :
    (∀ k, k ≠ "t1" →
      updateTaskStatus pendingStore "t1" "researched" "T1"
        [("s3Key", "research/t1.md")] k = pendingStore k) ∧
    ∃ it2, updateTaskStatus pendingStore "t1" "researched" "T1"
        [("s3Key", "research/t1.md")] "t1" = some it2 ∧
      it2 "status" = some "researched" ∧
      it2 "updatedAt" = some "T1" ∧
      (∀ p ∈ [("s3Key", "research/t1.md")], it2 p.1 = some p.2) ∧
      it2 "taskId" = pendingItem "t1" "cats" "T0" "taskId" ∧
      it2 "topic" = pendingItem "t1" "cats" "T0" "topic" ∧
      it2 "createdAt" = pendingItem "t1" "cats" "T0" "createdAt" ∧
      (∀ f, f ≠ "status" → f ≠ "updatedAt" →
        (∀ p ∈ [("s3Key", "research/t1.md")], f ≠ p.1) →
        it2 f = pendingItem "t1" "cats" "T0" f) :=
  updateTaskStatus_frame pendingStore "t1" "researched" "T1"
    [("s3Key", "research/t1.md")] (pendingItem "t1" "cats" "T0") rfl
    (Or.inr (Or.inl ⟨"research/t1.md", rfl⟩))
